import Mathlib

set_option linter.unusedVariables false

/-!
Shallow embedding of src/windows/ble_server.cpp: a minimal BLE GATT
peripheral lifecycle controller. Global state is the running flag, the
stored C callback pointer and the service-provider handle. The background
thread body is modelled as a computation over an environment of platform
outcomes (whether each identifier string parses as a GUID, and whether the
two asynchronous creation calls report a BluetoothError other than
Success), producing an ordered trace of observable events. The
WriteRequested handler is a pure function from the incoming buffer and the
stored callback to its event trace. The buffer arithmetic of parse_guid is
modelled separately against the documented contract of
MultiByteToWideChar.
-/

/-- Flag values of the platform GattCharacteristicProperties flags
enumeration, as defined by the Windows GATT API. -/
def GattCharacteristicProperties_Broadcast : Nat := 1

def GattCharacteristicProperties_Read : Nat := 2

def GattCharacteristicProperties_WriteWithoutResponse : Nat := 4

def GattCharacteristicProperties_Write : Nat := 8

def GattCharacteristicProperties_Notify : Nat := 16

def GattCharacteristicProperties_Indicate : Nat := 32

/-- The platform GattProtectionLevel enumeration. -/
inductive GattProtectionLevel where
  | Plain
  | AuthenticationRequired
  | EncryptionRequired
  | EncryptionAndAuthenticationRequired
  deriving DecidableEq, Repr

/-- The three fields of GattLocalCharacteristicParameters that the source
sets: the properties flag word, the write protection level and the user
description string. -/
structure GattLocalCharacteristicParameters where
  characteristicProperties : Nat
  writeProtectionLevel : GattProtectionLevel
  userDescription : String
  deriving DecidableEq, Repr

/-- The characteristic parameters built in the background thread body:
CharacteristicProperties(Write), WriteProtectionLevel(Plain),
UserDescription(L"Command Receiver"). -/
def charParams : GattLocalCharacteristicParameters :=
  { characteristicProperties := GattCharacteristicProperties_Write
    writeProtectionLevel := GattProtectionLevel.Plain
    userDescription := "Command Receiver" }

/-- Whether a flags word has a given flag set (bitwise test, as the flags
enumeration is combined bitwise on the platform). -/
def hasProperty (p : GattLocalCharacteristicParameters) (flag : Nat) : Bool :=
  decide (p.characteristicProperties &&& flag ≠ 0)

/-- Observable events of the controller, its background thread and the
WriteRequested handler, in the order they occur. -/
inductive Event where
  | threadLaunched
  | serviceCreated
  | characteristicCreated (params : GattLocalCharacteristicParameters)
  | handlerRegistered
  | advertisingStarted
  | advertisingStopped
  | logged (msg : String)
  | sinkInvoked (data : List Nat)
  | respondSent
  | deferralCompleted
  | runningCleared
  | threadJoined
  | callbackCleared
  deriving DecidableEq, Repr

/-- The process-wide globals of ble_server.cpp: the atomic running flag,
the stored DataCallback pointer (none models nullptr; a callback pointer is
modelled as a Nat identity) and the GattServiceProvider handle (none models
nullptr). -/
structure BleState where
  running : Bool
  g_callback : Option Nat
  g_service_provider : Option Unit
  deriving DecidableEq, Repr

/-- Status of the background thread: not existing (or already joined),
returned early from a failed setup (still joinable), or sitting in the
polling loop after a successful setup. -/
inductive ThreadPhase where
  | noThread
  | exitedEarly
  | inLoop
  deriving DecidableEq, Repr

/-- The whole controller: globals plus background thread status. -/
structure BleSystem where
  st : BleState
  phase : ThreadPhase
  deriving DecidableEq, Repr

/-- Environment of platform outcomes the background setup depends on:
whether a given identifier string parses as a platform GUID, and whether
CreateAsync or CreateCharacteristicAsync report a BluetoothError other
than Success. -/
structure OsEnv where
  guidParses : String → Bool
  serviceCreateError : Bool
  charCreateError : Bool

/-- Faults that the try block of the background thread body can raise; a
malformed identifier makes the winrt guid constructor inside parse_guid
raise an invalid-argument fault, which is a std::exception and so is
caught by the top-level catch of the thread body. -/
inductive BleFault where
  | invalidGuidString (s : String)
  deriving DecidableEq, Repr

/-- The what() text of a fault. -/
def fault_what : BleFault → String
  | BleFault.invalidGuidString _ => "value is not a valid GUID string"

/-- The byte-reading loop of the WriteRequested handler: while the reader
has unconsumed bytes, push the next byte onto data. The first argument is
the data vector accumulated so far, the second the unconsumed bytes of the
reader. -/
def readLoop (data : List Nat) (reader : List Nat) : List Nat :=
  match reader with
  | [] => data
  | b :: rest => readLoop (data ++ [b]) rest

/-- The WriteRequested handler body: read all bytes from the buffer
reader, invoke the stored callback on the data if it is non-null, then
request.Respond(), then deferral.Complete(). -/
def writeRequestedHandler (g_callback : Option Nat) (buffer : List Nat) : List Event :=
  let data := readLoop [] buffer
  (if g_callback.isSome then [Event.sinkInvoked data] else []) ++
    [Event.respondSent, Event.deferralCompleted]

/-- The try block of the background thread body: parse both identifiers
(raising a fault on a malformed one), create the service (on error log and
return early), store the provider handle, create the characteristic with
charParams (on error log and return early), register the WriteRequested
handler, start advertising and log, then enter the polling loop. Returns
the updated globals, the event trace and the resulting thread phase. -/
def try_body (env : OsEnv) (service_uuid characteristic_uuid : String) (st : BleState) :
    Except BleFault (BleState × List Event × ThreadPhase) :=
  if env.guidParses service_uuid = false then
    Except.error (BleFault.invalidGuidString service_uuid)
  else if env.guidParses characteristic_uuid = false then
    Except.error (BleFault.invalidGuidString characteristic_uuid)
  else if env.serviceCreateError then
    Except.ok (st, [Event.logged "Failed to create GATT service\n"], ThreadPhase.exitedEarly)
  else
    let st1 := { st with g_service_provider := some () }
    if env.charCreateError then
      Except.ok (st1, [Event.serviceCreated, Event.logged "Failed to create characteristic\n"],
        ThreadPhase.exitedEarly)
    else
      Except.ok (st1,
        [Event.serviceCreated, Event.characteristicCreated charParams,
          Event.handlerRegistered, Event.advertisingStarted,
          Event.logged "BLE GATT server started\n"],
        ThreadPhase.inLoop)

/-- The background thread body up to (and including) entering the polling
loop: the try block with its top-level catch, which logs the what() text
of a caught exception and lets the thread exit. -/
def ble_thread_setup (env : OsEnv) (service_uuid characteristic_uuid : String) (st : BleState) :
    BleState × List Event × ThreadPhase :=
  match try_body env service_uuid characteristic_uuid st with
  | Except.ok r => r
  | Except.error f =>
      (st, [Event.logged ("Exception: " ++ fault_what f ++ "\n")], ThreadPhase.exitedEarly)

/-- start_ble_server: if running, return immediately; otherwise set
running, store the callback, and launch the background thread (whose setup
is modelled as running to its loop or early exit). Returns the new system
and the event trace of the call. -/
def start_ble_server (env : OsEnv) (sys : BleSystem)
    (name service_uuid characteristic_uuid : String) (callback : Option Nat) :
    BleSystem × List Event :=
  if sys.st.running then (sys, [])
  else
    let st1 := { sys.st with running := true, g_callback := callback }
    let r := ble_thread_setup env service_uuid characteristic_uuid st1
    (⟨r.1, r.2.2⟩, Event.threadLaunched :: r.2.1)

/-- stop_ble_server: if not running, return immediately; otherwise clear
the running flag, join the thread if joinable (a thread in the polling
loop observes the cleared flag, stops advertising, nulls the provider
handle and logs before terminating), then null the stored callback. -/
def stop_ble_server (sys : BleSystem) : BleSystem × List Event :=
  if sys.st.running = false then (sys, [])
  else
    let st1 := { sys.st with running := false }
    match sys.phase with
    | ThreadPhase.inLoop =>
        (⟨{ st1 with g_service_provider := none, g_callback := none }, ThreadPhase.noThread⟩,
          [Event.runningCleared, Event.advertisingStopped,
            Event.logged "BLE GATT server stopped\n", Event.threadJoined, Event.callbackCleared])
    | ThreadPhase.exitedEarly =>
        (⟨{ st1 with g_callback := none }, ThreadPhase.noThread⟩,
          [Event.runningCleared, Event.threadJoined, Event.callbackCleared])
    | ThreadPhase.noThread =>
        (⟨{ st1 with g_callback := none }, ThreadPhase.noThread⟩,
          [Event.runningCleared, Event.callbackCleared])

/-- Delivery of a peer write to the controller: only a system whose thread
reached the loop has a registered characteristic and handler, so only
there does the platform invoke the WriteRequested handler; otherwise no
handler exists and nothing happens. -/
def deliver_write (sys : BleSystem) (buffer : List Nat) : List Event :=
  match sys.phase with
  | ThreadPhase.inLoop => writeRequestedHandler sys.st.g_callback buffer
  | _ => []

/-- The initial state of the process: not running, null callback, null
provider, no thread. -/
def idleSystem : BleSystem := ⟨⟨false, none, none⟩, ThreadPhase.noThread⟩

/-- Size in wide characters of the buffer parse_guid allocates: a
std::wstring of strlen(uuid_cstr) wide null characters. The source string
is modelled as the bytes of uuid_cstr, one wide character per byte (GUID
text is ASCII). -/
def parse_guid_buffer_chars (uuid_cstr : String) : Nat := uuid_cstr.length

/-- Modelled from the documented contract of MultiByteToWideChar: with
cbMultiByte = -1 the source is processed as null-terminated including its
terminator, so for a single-byte-per-character source the conversion
needs strlen + 1 wide characters of output capacity. -/
def multiByteToWideChar_required_chars (uuid_cstr : String) : Nat := uuid_cstr.length + 1

/-- Modelled from the documented contract of MultiByteToWideChar: the call
succeeds iff the given output capacity cchWideChar is at least the
required number of wide characters; on a smaller capacity it fails with
ERROR_INSUFFICIENT_BUFFER (and never writes beyond cchWideChar
characters, so no out-of-bounds write occurs either way). -/
def multiByteToWideChar_ok (uuid_cstr : String) (cchWideChar : Nat) : Bool :=
  decide (multiByteToWideChar_required_chars uuid_cstr ≤ cchWideChar)

theorem readLoop_eq (data reader : List Nat) : readLoop data reader = data ++ reader := by
  induction reader generalizing data with
  | nil => simp [readLoop]
  | cons b rest ih => simp [readLoop, ih]

/-- C1: for an incoming write carrying buffer bytes, with a non-null
stored callback, the handler reads the whole buffer, invokes the sink
exactly once with exactly those bytes in order, then sends the success
response, then completes the deferral, in that order. -/
theorem write_handler_sink_once_then_respond_then_complete
    (sys : BleSystem) (cb : Nat) (buffer : List Nat)
    (hphase : sys.phase = ThreadPhase.inLoop)
    (hcb : sys.st.g_callback = some cb) :
    deliver_write sys buffer =
      [Event.sinkInvoked buffer, Event.respondSent, Event.deferralCompleted] := by
  simp [deliver_write, hphase, writeRequestedHandler, hcb, readLoop_eq]

theorem write_handler_sink_once_witness :
    (⟨⟨true, some 7, some ()⟩, ThreadPhase.inLoop⟩ : BleSystem).phase = ThreadPhase.inLoop ∧
    (⟨⟨true, some 7, some ()⟩, ThreadPhase.inLoop⟩ : BleSystem).st.g_callback = some 7 ∧
    deliver_write ⟨⟨true, some 7, some ()⟩, ThreadPhase.inLoop⟩ [1, 2, 3] =
      [Event.sinkInvoked [1, 2, 3], Event.respondSent, Event.deferralCompleted] :=
  ⟨rfl, rfl, write_handler_sink_once_then_respond_then_complete _ 7 [1, 2, 3] rfl rfl⟩

/-- C2: starting while already running returns immediately without effect:
the system is unchanged (so the stored sink is not replaced) and the call
emits no events (so no second thread is launched and no second service or
characteristic is created). -/
theorem start_when_running_is_noop (env : OsEnv) (sys : BleSystem)
    (name service_uuid characteristic_uuid : String) (callback : Option Nat)
    (h : sys.st.running = true) :
    start_ble_server env sys name service_uuid characteristic_uuid callback = (sys, []) := by
  simp [start_ble_server, h]

theorem start_when_running_is_noop_witness :
    (⟨⟨true, some 7, some ()⟩, ThreadPhase.inLoop⟩ : BleSystem).st.running = true ∧
    start_ble_server ⟨fun _ => true, false, false⟩ ⟨⟨true, some 7, some ()⟩, ThreadPhase.inLoop⟩
        "MyDevice" "s" "c" (some 9) =
      (⟨⟨true, some 7, some ()⟩, ThreadPhase.inLoop⟩, []) :=
  ⟨rfl, start_when_running_is_noop ⟨fun _ => true, false, false⟩
    ⟨⟨true, some 7, some ()⟩, ThreadPhase.inLoop⟩ "MyDevice" "s" "c" (some 9) rfl⟩

/-- C3: stopping a running controller clears the running flag first,
joins the background thread, and only after the join clears the stored
callback (the trace starts with runningCleared and ends with threadJoined
immediately followed by callbackCleared); afterwards the thread is gone,
the callback is null, and no delivery of a peer write can invoke the sink
again. -/
theorem stop_when_running_joins_then_clears_sink (sys : BleSystem)
    (h : sys.st.running = true) (hph : sys.phase ≠ ThreadPhase.noThread) :
    (stop_ble_server sys).1.st.running = false ∧
    (stop_ble_server sys).1.st.g_callback = none ∧
    (stop_ble_server sys).1.phase = ThreadPhase.noThread ∧
    (∃ mid, (stop_ble_server sys).2 =
      Event.runningCleared :: mid ++ [Event.threadJoined, Event.callbackCleared]) ∧
    (∀ buffer, deliver_write (stop_ble_server sys).1 buffer = []) := by
  cases hph2 : sys.phase with
  | noThread => exact absurd hph2 hph
  | exitedEarly =>
      refine ⟨?_, ?_, ?_, ⟨[], ?_⟩, fun buffer => ?_⟩ <;>
        simp [stop_ble_server, h, hph2, deliver_write]
  | inLoop =>
      refine ⟨?_, ?_, ?_,
        ⟨[Event.advertisingStopped, Event.logged "BLE GATT server stopped\n"], ?_⟩,
        fun buffer => ?_⟩ <;>
      simp [stop_ble_server, h, hph2, deliver_write]

theorem stop_when_running_joins_witness :
    (⟨⟨true, some 7, some ()⟩, ThreadPhase.inLoop⟩ : BleSystem).st.running = true ∧
    (⟨⟨true, some 7, some ()⟩, ThreadPhase.inLoop⟩ : BleSystem).phase ≠ ThreadPhase.noThread ∧
    ((stop_ble_server ⟨⟨true, some 7, some ()⟩, ThreadPhase.inLoop⟩).1.st.running = false ∧
     (stop_ble_server ⟨⟨true, some 7, some ()⟩, ThreadPhase.inLoop⟩).1.st.g_callback = none ∧
     (stop_ble_server ⟨⟨true, some 7, some ()⟩, ThreadPhase.inLoop⟩).1.phase = ThreadPhase.noThread ∧
     (∃ mid, (stop_ble_server ⟨⟨true, some 7, some ()⟩, ThreadPhase.inLoop⟩).2 =
       Event.runningCleared :: mid ++ [Event.threadJoined, Event.callbackCleared]) ∧
     (∀ buffer, deliver_write (stop_ble_server ⟨⟨true, some 7, some ()⟩, ThreadPhase.inLoop⟩).1 buffer = [])) :=
  ⟨rfl, by decide,
    stop_when_running_joins_then_clears_sink ⟨⟨true, some 7, some ()⟩, ThreadPhase.inLoop⟩ rfl (by decide)⟩

/-- C4: if the service-creation or characteristic-creation call reports an
error during background setup, the thread logs the corresponding
diagnostic and exits early, advertising never starts, and the running flag
remains set even though nothing is active, until a later stop call clears
it. -/
theorem create_failure_logs_and_leaves_running_until_stop
    (env : OsEnv) (sys : BleSystem) (name su cu : String) (cb : Option Nat)
    (hidle : sys.st.running = false)
    (hsu : env.guidParses su = true) (hcu : env.guidParses cu = true)
    (hfail : env.serviceCreateError = true ∨ env.charCreateError = true) :
    (start_ble_server env sys name su cu cb).1.phase = ThreadPhase.exitedEarly ∧
    (start_ble_server env sys name su cu cb).1.st.running = true ∧
    Event.advertisingStarted ∉ (start_ble_server env sys name su cu cb).2 ∧
    (Event.logged "Failed to create GATT service\n" ∈ (start_ble_server env sys name su cu cb).2 ∨
     Event.logged "Failed to create characteristic\n" ∈ (start_ble_server env sys name su cu cb).2) ∧
    (stop_ble_server (start_ble_server env sys name su cu cb).1).1.st.running = false := by
  cases hs : env.serviceCreateError with
  | true =>
      refine ⟨?_, ?_, ?_, Or.inl ?_, ?_⟩ <;>
        simp [start_ble_server, ble_thread_setup, try_body, hidle, hsu, hcu, hs, stop_ble_server]
  | false =>
      cases hc : env.charCreateError with
      | true =>
          refine ⟨?_, ?_, ?_, Or.inr ?_, ?_⟩ <;>
            simp [start_ble_server, ble_thread_setup, try_body, hidle, hsu, hcu, hs, hc,
              stop_ble_server]
      | false => simp [hs, hc] at hfail

theorem create_failure_witness :
    ((⟨fun _ => true, true, false⟩ : OsEnv).guidParses "s" = true) ∧
    ((⟨fun _ => true, true, false⟩ : OsEnv).serviceCreateError = true ∨
     (⟨fun _ => true, true, false⟩ : OsEnv).charCreateError = true) ∧
    ((start_ble_server ⟨fun _ => true, true, false⟩ idleSystem "n" "s" "c" (some 7)).1.phase =
        ThreadPhase.exitedEarly ∧
     (start_ble_server ⟨fun _ => true, true, false⟩ idleSystem "n" "s" "c" (some 7)).1.st.running = true ∧
     Event.advertisingStarted ∉
       (start_ble_server ⟨fun _ => true, true, false⟩ idleSystem "n" "s" "c" (some 7)).2 ∧
     (Event.logged "Failed to create GATT service\n" ∈
        (start_ble_server ⟨fun _ => true, true, false⟩ idleSystem "n" "s" "c" (some 7)).2 ∨
      Event.logged "Failed to create characteristic\n" ∈
        (start_ble_server ⟨fun _ => true, true, false⟩ idleSystem "n" "s" "c" (some 7)).2) ∧
     (stop_ble_server
        (start_ble_server ⟨fun _ => true, true, false⟩ idleSystem "n" "s" "c" (some 7)).1).1.st.running =
       false) :=
  ⟨rfl, Or.inl rfl,
    create_failure_logs_and_leaves_running_until_stop ⟨fun _ => true, true, false⟩ idleSystem
      "n" "s" "c" (some 7) rfl rfl rfl (Or.inl rfl)⟩

/-- C5: starting with a service or characteristic identifier string that
does not parse as a GUID makes background setup fail cleanly: the parse
fault is caught by the top-level catch of the thread body (which logs the
exception text), the thread exits early, advertising never starts, and the
sink is never invoked, neither during the call nor by a later peer
write. -/
theorem malformed_uuid_caught_no_advertising_no_sink
    (env : OsEnv) (sys : BleSystem) (name su cu : String) (cb : Option Nat)
    (hidle : sys.st.running = false)
    (hbad : env.guidParses su = false ∨ env.guidParses cu = false) :
    Event.logged "Exception: value is not a valid GUID string\n" ∈
      (start_ble_server env sys name su cu cb).2 ∧
    (start_ble_server env sys name su cu cb).1.phase = ThreadPhase.exitedEarly ∧
    Event.advertisingStarted ∉ (start_ble_server env sys name su cu cb).2 ∧
    (∀ d, Event.sinkInvoked d ∉ (start_ble_server env sys name su cu cb).2) ∧
    (∀ buffer, deliver_write (start_ble_server env sys name su cu cb).1 buffer = []) := by
  cases hsu : env.guidParses su with
  | false =>
      refine ⟨?_, ?_, ?_, fun d => ?_, fun buffer => ?_⟩ <;>
        simp [start_ble_server, ble_thread_setup, try_body, fault_what, hidle, hsu, deliver_write]
  | true =>
      cases hcu : env.guidParses cu with
      | false =>
          refine ⟨?_, ?_, ?_, fun d => ?_, fun buffer => ?_⟩ <;>
            simp [start_ble_server, ble_thread_setup, try_body, fault_what, hidle, hsu, hcu,
              deliver_write]
      | true => simp [hsu, hcu] at hbad

theorem malformed_uuid_witness :
    ((⟨fun s => decide (s = "0000180d-0000-1000-8000-00805f9b34fb"), false, false⟩ : OsEnv).guidParses
        "not-a-uuid" = false ∨
     (⟨fun s => decide (s = "0000180d-0000-1000-8000-00805f9b34fb"), false, false⟩ : OsEnv).guidParses
        "0000180d-0000-1000-8000-00805f9b34fb" = false) ∧
    (Event.logged "Exception: value is not a valid GUID string\n" ∈
      (start_ble_server ⟨fun s => decide (s = "0000180d-0000-1000-8000-00805f9b34fb"), false, false⟩
        idleSystem "n" "not-a-uuid" "0000180d-0000-1000-8000-00805f9b34fb" (some 7)).2 ∧
     (start_ble_server ⟨fun s => decide (s = "0000180d-0000-1000-8000-00805f9b34fb"), false, false⟩
        idleSystem "n" "not-a-uuid" "0000180d-0000-1000-8000-00805f9b34fb" (some 7)).1.phase =
       ThreadPhase.exitedEarly ∧
     Event.advertisingStarted ∉
      (start_ble_server ⟨fun s => decide (s = "0000180d-0000-1000-8000-00805f9b34fb"), false, false⟩
        idleSystem "n" "not-a-uuid" "0000180d-0000-1000-8000-00805f9b34fb" (some 7)).2 ∧
     (∀ d, Event.sinkInvoked d ∉
      (start_ble_server ⟨fun s => decide (s = "0000180d-0000-1000-8000-00805f9b34fb"), false, false⟩
        idleSystem "n" "not-a-uuid" "0000180d-0000-1000-8000-00805f9b34fb" (some 7)).2) ∧
     (∀ buffer, deliver_write
      (start_ble_server ⟨fun s => decide (s = "0000180d-0000-1000-8000-00805f9b34fb"), false, false⟩
        idleSystem "n" "not-a-uuid" "0000180d-0000-1000-8000-00805f9b34fb" (some 7)).1 buffer = [])) :=
  ⟨Or.inl (by decide),
    malformed_uuid_caught_no_advertising_no_sink
      ⟨fun s => decide (s = "0000180d-0000-1000-8000-00805f9b34fb"), false, false⟩
      idleSystem "n" "not-a-uuid" "0000180d-0000-1000-8000-00805f9b34fb" (some 7) rfl
      (Or.inl (by decide))⟩

/-- C6: stopping while not running is a no-op: the system is returned
unchanged and the call emits no events, in particular no join occurs, so
the call does not block. -/
theorem stop_when_not_running_is_noop (sys : BleSystem) (h : sys.st.running = false) :
    stop_ble_server sys = (sys, []) := by
  simp [stop_ble_server, h]

theorem stop_when_not_running_is_noop_witness :
    (idleSystem.st.running = false) ∧ stop_ble_server idleSystem = (idleSystem, []) :=
  ⟨rfl, stop_when_not_running_is_noop idleSystem rfl⟩

/-- C7: any characteristic created during background setup is created with
exactly charParams: the Write property and no Read, Notify or Indicate
property, protection level Plain, and user description
"Command Receiver". -/
theorem characteristic_write_only_plain_description
    (env : OsEnv) (sys : BleSystem) (name su cu : String) (cb : Option Nat)
    (p : GattLocalCharacteristicParameters)
    (hp : Event.characteristicCreated p ∈ (start_ble_server env sys name su cu cb).2) :
    p = charParams ∧
    hasProperty p GattCharacteristicProperties_Write = true ∧
    hasProperty p GattCharacteristicProperties_Read = false ∧
    hasProperty p GattCharacteristicProperties_Notify = false ∧
    hasProperty p GattCharacteristicProperties_Indicate = false ∧
    p.writeProtectionLevel = GattProtectionLevel.Plain ∧
    p.userDescription = "Command Receiver" := by
  have hpc : p = charParams := by
    by_cases hr : sys.st.running
    · simp [start_ble_server, hr] at hp
    · by_cases hsu : env.guidParses su = false
      · simp [start_ble_server, ble_thread_setup, try_body, hr, hsu] at hp
      · by_cases hcu : env.guidParses cu = false
        · simp [start_ble_server, ble_thread_setup, try_body, hr, hsu, hcu] at hp
        · by_cases hs : env.serviceCreateError
          · simp [start_ble_server, ble_thread_setup, try_body, hr, hsu, hcu, hs] at hp
          · by_cases hc : env.charCreateError
            · simp [start_ble_server, ble_thread_setup, try_body, hr, hsu, hcu, hs, hc] at hp
            · simp [start_ble_server, ble_thread_setup, try_body, hr, hsu, hcu, hs, hc] at hp
              exact hp
  subst hpc
  refine ⟨rfl, ?_, ?_, ?_, ?_, rfl, rfl⟩ <;> decide

theorem characteristic_write_only_witness :
    (Event.characteristicCreated charParams ∈
      (start_ble_server ⟨fun _ => true, false, false⟩ idleSystem "n" "s" "c" (some 7)).2) ∧
    (charParams = charParams ∧
     hasProperty charParams GattCharacteristicProperties_Write = true ∧
     hasProperty charParams GattCharacteristicProperties_Read = false ∧
     hasProperty charParams GattCharacteristicProperties_Notify = false ∧
     hasProperty charParams GattCharacteristicProperties_Indicate = false ∧
     charParams.writeProtectionLevel = GattProtectionLevel.Plain ∧
     charParams.userDescription = "Command Receiver") :=
  ⟨by decide,
    characteristic_write_only_plain_description ⟨fun _ => true, false, false⟩ idleSystem
      "n" "s" "c" (some 7) charParams (by decide)⟩

/-- C8: an incoming write while the stored callback is null is still fully
acknowledged: the handler sends the success response and completes the
deferral, and the payload is dropped (no sink invocation appears in the
trace). -/
theorem write_acknowledged_without_callback (sys : BleSystem) (buffer : List Nat)
    (hphase : sys.phase = ThreadPhase.inLoop)
    (hcb : sys.st.g_callback = none) :
    deliver_write sys buffer = [Event.respondSent, Event.deferralCompleted] := by
  simp [deliver_write, hphase, writeRequestedHandler, hcb]

theorem write_acknowledged_without_callback_witness :
    (⟨⟨true, none, some ()⟩, ThreadPhase.inLoop⟩ : BleSystem).phase = ThreadPhase.inLoop ∧
    (⟨⟨true, none, some ()⟩, ThreadPhase.inLoop⟩ : BleSystem).st.g_callback = none ∧
    deliver_write ⟨⟨true, none, some ()⟩, ThreadPhase.inLoop⟩ [1, 2, 3] =
      [Event.respondSent, Event.deferralCompleted] :=
  ⟨rfl, rfl, write_acknowledged_without_callback ⟨⟨true, none, some ()⟩, ThreadPhase.inLoop⟩
    [1, 2, 3] rfl rfl⟩

theorem stop_clears_running_and_callback (sys : BleSystem) (h : sys.st.running = true) :
    (stop_ble_server sys).1.st.running = false ∧
    (stop_ble_server sys).1.st.g_callback = none := by
  cases hph : sys.phase <;> simp [stop_ble_server, h, hph]

theorem cycle_from_idle (env : OsEnv) (name su cu : String) (cb : Option Nat)
    (hsu : env.guidParses su = true) (hcu : env.guidParses cu = true)
    (hserr : env.serviceCreateError = false) (hcerr : env.charCreateError = false) :
    (stop_ble_server (start_ble_server env idleSystem name su cu cb).1).1 = idleSystem := by
  simp [start_ble_server, ble_thread_setup, try_body, idleSystem, hsu, hcu, hserr, hcerr,
    stop_ble_server]

/-- C9: after stop returns from a running state the controller is idle
again (running flag false, stored callback null), and a subsequent start
is not a no-op: with a healthy platform it launches a fresh thread,
creates a new service and characteristic and reaches the polling loop;
iterating a whole start plus stop cycle any number of times from the idle
state returns to the idle state. -/
theorem stop_then_start_relaunches_and_cycles
    (env : OsEnv) (sys : BleSystem) (name su cu : String) (cb : Option Nat) (n : Nat)
    (hrun : sys.st.running = true)
    (hsu : env.guidParses su = true) (hcu : env.guidParses cu = true)
    (hserr : env.serviceCreateError = false) (hcerr : env.charCreateError = false) :
    (stop_ble_server sys).1.st.running = false ∧
    (stop_ble_server sys).1.st.g_callback = none ∧
    (start_ble_server env (stop_ble_server sys).1 name su cu cb).2 =
      [Event.threadLaunched, Event.serviceCreated, Event.characteristicCreated charParams,
        Event.handlerRegistered, Event.advertisingStarted,
        Event.logged "BLE GATT server started\n"] ∧
    (start_ble_server env (stop_ble_server sys).1 name su cu cb).1.phase = ThreadPhase.inLoop ∧
    (start_ble_server env (stop_ble_server sys).1 name su cu cb).1.st.running = true ∧
    (fun s => (stop_ble_server (start_ble_server env s name su cu cb).1).1)^[n] idleSystem =
      idleSystem := by
  obtain ⟨h1, h2⟩ := stop_clears_running_and_callback sys hrun
  refine ⟨h1, h2, ?_, ?_, ?_, ?_⟩
  · simp [start_ble_server, ble_thread_setup, try_body, h1, hsu, hcu, hserr, hcerr]
  · simp [start_ble_server, ble_thread_setup, try_body, h1, hsu, hcu, hserr, hcerr]
  · simp [start_ble_server, ble_thread_setup, try_body, h1, hsu, hcu, hserr, hcerr]
  · induction n with
    | zero => rfl
    | succ m ih =>
        rw [Function.iterate_succ_apply, cycle_from_idle env name su cu cb hsu hcu hserr hcerr]
        exact ih

theorem stop_then_start_relaunches_witness :
    ((⟨⟨true, some 7, some ()⟩, ThreadPhase.inLoop⟩ : BleSystem).st.running = true) ∧
    ((stop_ble_server ⟨⟨true, some 7, some ()⟩, ThreadPhase.inLoop⟩).1.st.running = false ∧
     (stop_ble_server ⟨⟨true, some 7, some ()⟩, ThreadPhase.inLoop⟩).1.st.g_callback = none ∧
     (start_ble_server ⟨fun _ => true, false, false⟩
        (stop_ble_server ⟨⟨true, some 7, some ()⟩, ThreadPhase.inLoop⟩).1 "n" "s" "c" (some 7)).2 =
       [Event.threadLaunched, Event.serviceCreated, Event.characteristicCreated charParams,
         Event.handlerRegistered, Event.advertisingStarted,
         Event.logged "BLE GATT server started\n"] ∧
     (start_ble_server ⟨fun _ => true, false, false⟩
        (stop_ble_server ⟨⟨true, some 7, some ()⟩, ThreadPhase.inLoop⟩).1 "n" "s" "c" (some 7)).1.phase =
       ThreadPhase.inLoop ∧
     (start_ble_server ⟨fun _ => true, false, false⟩
        (stop_ble_server ⟨⟨true, some 7, some ()⟩, ThreadPhase.inLoop⟩).1 "n" "s" "c" (some 7)).1.st.running =
       true ∧
     (fun s => (stop_ble_server
        (start_ble_server ⟨fun _ => true, false, false⟩ s "n" "s" "c" (some 7)).1).1)^[3] idleSystem =
       idleSystem) :=
  ⟨rfl, stop_then_start_relaunches_and_cycles ⟨fun _ => true, false, false⟩
    ⟨⟨true, some 7, some ()⟩, ThreadPhase.inLoop⟩ "n" "s" "c" (some 7) 3 rfl rfl rfl rfl rfl⟩

/-- C10: the claim that the wide buffer allocated by parse_guid is large
enough for the null-terminated conversion is false: for every identifier
string the buffer holds strlen wide characters while the conversion with
source length -1 requires strlen + 1 including the terminator, so by the
documented contract of MultiByteToWideChar the conversion fails with an
insufficient buffer; in particular it fails on the well-formed UUID
0000180d-0000-1000-8000-00805f9b34fb, whose 36 characters need a
37-character buffer. -/
theorem parse_guid_buffer_one_char_too_small :
    (∀ uuid_cstr : String,
      multiByteToWideChar_ok uuid_cstr (parse_guid_buffer_chars uuid_cstr) = false) ∧
    parse_guid_buffer_chars "0000180d-0000-1000-8000-00805f9b34fb" = 36 ∧
    multiByteToWideChar_required_chars "0000180d-0000-1000-8000-00805f9b34fb" = 37 ∧
    multiByteToWideChar_ok "0000180d-0000-1000-8000-00805f9b34fb"
      (parse_guid_buffer_chars "0000180d-0000-1000-8000-00805f9b34fb") = false := by
  refine ⟨fun s => ?_, by decide, by decide, by decide⟩
  simp [multiByteToWideChar_ok, multiByteToWideChar_required_chars, parse_guid_buffer_chars]
